import Mathlib

/-!
Verification of the pinpoint geography-guessing game core against its
design document. Each source function of the web client library
(src/web/src/lib) that the tracked claims mention is embedded as a pure
Lean definition: JavaScript 32-bit integer arithmetic becomes Nat or Int
arithmetic with explicit reduction modulo 2 to the 32, floating point
[0,1) samples and coordinates become rationals, localStorage becomes an
explicit state value threaded through the functions, and network calls
become explicit outcome parameters.
-/

/- ## Seeded random number generation (savedMaps.ts, mulberry32) -/

/-- JavaScript Math.imul on the unsigned 32-bit bit patterns: multiply and
truncate to 32 bits. -/
def imul (a b : Nat) : Nat := a * b % 4294967296

/-- One output of the mulberry32 mixer on the post-increment closure state,
on unsigned 32-bit bit patterns. Mirrors the body of the closure returned by
seededRandom: t = imul(t xor (t >>> 15), t or 1); t = t xor (t + imul(t xor
(t >>> 7), t or 61)); return (t xor (t >>> 14)) >>> 0. -/
def mulberry32 (t0 : Nat) : Nat :=
  let t1 := imul (t0 ^^^ (t0 >>> 15)) (t0 ||| 1)
  let t2 := t1 ^^^ ((t1 + imul (t1 ^^^ (t1 >>> 7)) (t1 ||| 61)) % 4294967296)
  t2 ^^^ (t2 >>> 14)

/-- Numerator of the k-th value (0-based) of the generator returned by
seededRandom(seed): the closure state after k+1 increments of 0x6d2b79f5,
reduced to its 32-bit pattern, then mixed. -/
def seededRandomNth (seed k : Nat) : Nat :=
  mulberry32 ((seed + (k + 1) * 0x6d2b79f5) % 4294967296)

/-- The k-th floating value of seededRandom(seed): the mixed 32-bit word
divided by 4294967296. -/
def seededRandomVal (seed k : Nat) : ℚ :=
  (seededRandomNth seed k : ℚ) / 4294967296

/- ## Date hashing (savedMaps.ts, dateToSeed) -/

/-- JavaScript ToInt32 coercion: reduce an integer to the signed 32-bit
value with the same low 32 bits. -/
def toInt32 (n : Int) : Int := (n + 2147483648) % 4294967296 - 2147483648

/-- dateToSeed: rolling 32-bit string hash of the date string, using the
step hash = ((hash << 5) - hash) + charCode coerced to int32 by the
bitwise-and, followed by Math.abs. -/
def dateToSeed (dateStr : String) : Nat :=
  (dateStr.foldl (fun hash c => toInt32 (toInt32 (hash * 32) - hash + c.toNat)) 0).natAbs

/- ## Distance bands (gameData.ts, getDistanceBand) -/

inductive Tier
  | excellent
  | good
  | fair
  | far
deriving DecidableEq

structure DistanceBand where
  label : String
  tier : Tier
deriving DecidableEq

/-- getDistanceBand from gameData.ts: the fixed threshold table mapping a
distance in kilometers to a label and a tier. -/
def getDistanceBand (distanceKm : ℚ) : DistanceBand :=
  if distanceKm < 25 then ⟨"Pinpoint Accuracy", .excellent⟩
  else if distanceKm < 75 then ⟨"Incredible!", .excellent⟩
  else if distanceKm < 200 then ⟨"Very Close", .excellent⟩
  else if distanceKm < 400 then ⟨"Close", .good⟩
  else if distanceKm < 700 then ⟨"Nearby", .good⟩
  else if distanceKm < 1200 then ⟨"Regional", .good⟩
  else if distanceKm < 2000 then ⟨"Distant", .fair⟩
  else if distanceKm < 3000 then ⟨"Farther Away", .fair⟩
  else if distanceKm < 4500 then ⟨"Very Distant", .fair⟩
  else if distanceKm < 6000 then ⟨"Long Haul", .far⟩
  else if distanceKm < 8000 then ⟨"Far Away", .far⟩
  else if distanceKm < 10000 then ⟨"Very Far", .far⟩
  else if distanceKm < 14000 then ⟨"Other Side of the World", .far⟩
  else ⟨"Furthest Possible", .far⟩

/-- Rank of a tier in the quality order: far is worst (0), excellent best (3). -/
def tierRank : Tier → Nat
  | .far => 0
  | .fair => 1
  | .good => 2
  | .excellent => 3

/- ## Player profile (playerProfile.ts) -/

/-- getPlayerName reads the stored name; the store is modeled as the
optional string currently persisted under the player-name key. -/
def getPlayerName (stored : Option String) : Option String := stored

/-- setPlayerName from playerProfile.ts: trims the input and writes it only
when the trimmed length is between 2 and 20 inclusive; otherwise the store
is left untouched. -/
def setPlayerName (name : String) (stored : Option String) : Option String :=
  let trimmedName := name.trim
  if 2 ≤ trimmedName.length ∧ trimmedName.length ≤ 20 then some trimmedName else stored

/- ## Daily results store (savedMaps.ts) -/

structure DailyResult where
  date : String
  playerName : String
  distanceKm : ℚ
  zoomLevel : ℚ
  guessLat : ℚ
  guessLng : ℚ
  actualLat : ℚ
  actualLng : ℚ
  country : Option String
  city : Option String
  actualDisplayName : Option String
  actualState : Option String
  guessCountry : Option String
  guessCity : Option String
  guessDisplayName : Option String
deriving DecidableEq

/-- The slice of localStorage the daily-puzzle functions touch: the list
under the daily-results key and the marker under the daily-played key. -/
structure DailyStore where
  dailyResults : List DailyResult
  dailyPlayed : Option String
deriving DecidableEq

def getDailyResults (s : DailyStore) : List DailyResult := s.dailyResults

/-- markDailyAsPlayed writes the current date string to the played marker;
the current date is passed explicitly as today. -/
def markDailyAsPlayed (today : String) (s : DailyStore) : DailyStore :=
  { s with dailyPlayed := some today }

/-- hasDailyBeenPlayed compares the stored marker with the current date
string, passed explicitly as today. -/
def hasDailyBeenPlayed (today : String) (s : DailyStore) : Bool :=
  s.dailyPlayed == some today

/-- Descending-by-date comparator used by saveDailyResult: the JS sort
comparator (a, b) => b.date.localeCompare(a.date), i.e. a precedes b when
b.date is at most a.date. -/
def dateDesc (a b : DailyResult) : Prop := b.date ≤ a.date

instance : DecidableRel dateDesc := fun a b => inferInstanceAs (Decidable (b.date ≤ a.date))

instance : IsTotal DailyResult dateDesc := ⟨fun a b => le_total b.date a.date⟩

instance : IsTrans DailyResult dateDesc := ⟨fun _ _ _ hab hbc => le_trans hbc hab⟩

/-- saveDailyResult from savedMaps.ts: drop any stored result with the same
date, append the new one, sort descending by date, keep the first 30, then
mark today as played. -/
def saveDailyResult (today : String) (result : DailyResult) (s : DailyStore) : DailyStore :=
  let results := getDailyResults s
  let filtered := results.filter (fun r => r.date != result.date)
  let sorted := (List.insertionSort dateDesc (filtered ++ [result])).take 30
  markDailyAsPlayed today { s with dailyResults := sorted }

/-- A concrete daily result used as test data. -/
def sampleDaily : DailyResult :=
  { date := "2024-06-01", playerName := "Ada", distanceKm := 10, zoomLevel := 2,
    guessLat := 1, guessLng := 2, actualLat := 3, actualLng := 4,
    country := none, city := none, actualDisplayName := none, actualState := none,
    guessCountry := none, guessCity := none, guessDisplayName := none }

/- ## Land checking and reverse geocoding (landChecker.ts) -/

/-- A country boundary feature: the numeric id rendered as a string, the
embedded property name when present, and the spherical containment test of
its geometry, abstracted as a predicate on coordinates. -/
structure CountryFeature where
  id : Option String
  name : Option String
  contains : ℚ → ℚ → Bool

/-- The static numeric-id-to-name table for the Natural Earth dataset, from
landChecker.ts. -/
def countryNames : List (String × String) := [
  ("4", "Afghanistan"), ("8", "Albania"), ("12", "Algeria"), ("24", "Angola"),
  ("32", "Argentina"), ("36", "Australia"), ("40", "Austria"), ("50", "Bangladesh"),
  ("56", "Belgium"), ("68", "Bolivia"), ("76", "Brazil"), ("100", "Bulgaria"),
  ("104", "Myanmar"), ("116", "Cambodia"), ("120", "Cameroon"), ("124", "Canada"),
  ("152", "Chile"), ("156", "China"), ("170", "Colombia"), ("180", "DR Congo"),
  ("188", "Costa Rica"), ("191", "Croatia"), ("192", "Cuba"), ("203", "Czech Republic"),
  ("208", "Denmark"), ("214", "Dominican Republic"), ("218", "Ecuador"), ("818", "Egypt"),
  ("222", "El Salvador"), ("231", "Ethiopia"), ("246", "Finland"), ("250", "France"),
  ("276", "Germany"), ("288", "Ghana"), ("300", "Greece"), ("320", "Guatemala"),
  ("332", "Haiti"), ("340", "Honduras"), ("348", "Hungary"), ("356", "India"),
  ("360", "Indonesia"), ("364", "Iran"), ("368", "Iraq"), ("372", "Ireland"),
  ("376", "Israel"), ("380", "Italy"), ("384", "Ivory Coast"), ("392", "Japan"),
  ("400", "Jordan"), ("404", "Kenya"), ("408", "North Korea"), ("410", "South Korea"),
  ("414", "Kuwait"), ("418", "Laos"), ("422", "Lebanon"), ("430", "Liberia"),
  ("434", "Libya"), ("458", "Malaysia"), ("466", "Mali"), ("484", "Mexico"),
  ("496", "Mongolia"), ("504", "Morocco"), ("508", "Mozambique"), ("516", "Namibia"),
  ("524", "Nepal"), ("528", "Netherlands"), ("554", "New Zealand"), ("558", "Nicaragua"),
  ("562", "Niger"), ("566", "Nigeria"), ("578", "Norway"), ("586", "Pakistan"),
  ("591", "Panama"), ("598", "Papua New Guinea"), ("600", "Paraguay"), ("604", "Peru"),
  ("608", "Philippines"), ("616", "Poland"), ("620", "Portugal"), ("642", "Romania"),
  ("643", "Russia"), ("682", "Saudi Arabia"), ("686", "Senegal"), ("688", "Serbia"),
  ("694", "Sierra Leone"), ("702", "Singapore"), ("703", "Slovakia"), ("704", "Vietnam"),
  ("705", "Slovenia"), ("706", "Somalia"), ("710", "South Africa"), ("716", "Zimbabwe"),
  ("724", "Spain"), ("729", "Sudan"), ("732", "Western Sahara"), ("752", "Sweden"),
  ("756", "Switzerland"), ("760", "Syria"), ("762", "Tajikistan"), ("764", "Thailand"),
  ("788", "Tunisia"), ("792", "Turkey"), ("800", "Uganda"), ("804", "Ukraine"),
  ("784", "United Arab Emirates"), ("826", "United Kingdom"), ("834", "Tanzania"),
  ("840", "United States"), ("854", "Burkina Faso"), ("858", "Uruguay"),
  ("860", "Uzbekistan"), ("862", "Venezuela"), ("887", "Yemen"), ("894", "Zambia")]

/-- isOnLand from landChecker.ts: some feature of the loaded set contains
the point. -/
def isOnLand (lat lng : ℚ) (features : List CountryFeature) : Bool :=
  features.any (fun f => f.contains lat lng)

/-- getCountryAtPoint from landChecker.ts: scan the features; on the first
containment hit resolve the numeric id through the static table, fall back
to the embedded property name, and keep scanning when neither is present. -/
def getCountryAtPoint (lat lng : ℚ) (features : List CountryFeature) : Option String :=
  features.findSome? (fun feat =>
    if feat.contains lat lng then
      match feat.id.bind (fun i => List.lookup i countryNames) with
      | some n => some n
      | none => feat.name
    else none)

/-- reverseGeocode from landChecker.ts: the local country-only lookup. The
outcome of loadLandData is passed explicitly: error means the remote
geometry fetch threw, and any failure yields the Unknown Location string. -/
def reverseGeocode (load : Except Unit (List CountryFeature)) (lat lng : ℚ) : String :=
  match load with
  | .error _ => "Unknown Location"
  | .ok features => (getCountryAtPoint lat lng features).getD "Unknown Location"

/-- The address fields of a Nominatim reverse-geocoding payload that
reverseGeocodeDetailed reads. -/
structure NominatimAddress where
  city : Option String
  town : Option String
  village : Option String
  hamlet : Option String
  municipality : Option String
  state : Option String
  region : Option String
  province : Option String
  county : Option String
  country : Option String
  tourism : Option String
  historic : Option String
  amenity : Option String
  leisure : Option String
  natural : Option String
  man_made : Option String
  building : Option String
  aeroway : Option String
  military : Option String
  neighbourhood : Option String
  suburb : Option String
  district : Option String
deriving DecidableEq, Inhabited

/-- Outcome of the throttled Nominatim request: a network error, a non-OK
response status, a body that fails to parse as JSON, or a parsed payload
whose address object may be absent. -/
inductive RemoteOutcome
  | networkError
  | badStatus
  | malformedBody
  | ok (address : Option NominatimAddress)
deriving DecidableEq

/-- The failure modes of the remote request: everything except a parsed
payload; these are exactly the paths on which the try block of
reverseGeocodeDetailed throws. -/
def RemoteOutcome.isFailure : RemoteOutcome → Bool
  | .ok _ => false
  | _ => true

structure DetailedLocation where
  city : Option String
  state : Option String
  country : String
  displayName : String
  landmark : Option String
  neighbourhood : Option String
deriving DecidableEq

/-- reverseGeocodeDetailed from landChecker.ts: on a parsed remote payload,
extract the per-field fallback chains and build the display name by the
landmark, city-state, city-country, neighbourhood-state, state-country,
country priority; on any failure of the remote call, fall back to the local
country-only lookup. -/
def reverseGeocodeDetailed (remote : RemoteOutcome) (load : Except Unit (List CountryFeature))
    (lat lng : ℚ) : DetailedLocation :=
  match remote with
  | .ok addr =>
    let address := addr.getD default
    let city := address.city <|> address.town <|> address.village <|> address.hamlet <|>
      address.municipality
    let state := address.state <|> address.region <|> address.province <|> address.county
    let country := address.country.getD "Unknown"
    let landmark := address.tourism <|> address.historic <|> address.amenity <|>
      address.leisure <|> address.natural <|> address.man_made <|> address.building <|>
      address.aeroway <|> address.military
    let neighbourhood := address.neighbourhood <|> address.suburb <|> address.district
    let displayName :=
      match landmark with
      | some l => l
      | none =>
        match city, state with
        | some c, some st => c ++ ", " ++ st
        | some c, none => c ++ ", " ++ country
        | none, _ =>
          match neighbourhood, state with
          | some n, some st => n ++ ", " ++ st
          | _, _ =>
            match state with
            | some st => st ++ ", " ++ country
            | none => country
    ⟨city, state, country, displayName, landmark, neighbourhood⟩
  | _ =>
    let country := reverseGeocode load lat lng
    ⟨none, none, country, country, none, none⟩

/- ## Point samplers (landChecker.ts and savedMaps.ts) -/

/-- The attempt loop of generateRandomLandPoint: the entropy source
Math.random is modeled as a stream of draws indexed by how many values have
been consumed; attempt i draws latitude from draw 2i over [-60, 70) and
longitude from draw 2i+1 over [-180, 180), accepts the first on-land hit,
and returns the Paris fallback when the fuel runs out. -/
def randLoop (land : ℚ → ℚ → Bool) (rand : Nat → ℚ) : Nat → Nat → ℚ × ℚ
  | 0, _ => (48.8566, 2.3522)
  | fuel + 1, i =>
    let lat := rand (2 * i) * 130 - 60
    let lng := rand (2 * i + 1) * 360 - 180
    if land lat lng then (lat, lng) else randLoop land rand fuel (i + 1)

/-- generateRandomLandPoint from landChecker.ts: up to 1000 attempts, with
the land containment test passed as a predicate. -/
def generateRandomLandPoint (land : ℚ → ℚ → Bool) (rand : Nat → ℚ) : ℚ × ℚ :=
  randLoop land rand 1000 0

/-- The attempt loop of generateSeededLandPoint: attempt i re-seeds a fresh
mulberry32 generator at seed + i * 12345, draws its first value for the
latitude over [-70, 70) and its second for the longitude over [-180, 180),
and returns the London fallback when the fuel runs out. -/
def seedLoop (land : ℚ → ℚ → Bool) (seed : Nat) : Nat → Nat → ℚ × ℚ
  | 0, _ => (51.5074, -0.1278)
  | fuel + 1, i =>
    let lat := seededRandomVal (seed + i * 12345) 0 * 140 - 70
    let lng := seededRandomVal (seed + i * 12345) 1 * 360 - 180
    if land lat lng then (lat, lng) else seedLoop land seed fuel (i + 1)

/-- generateSeededLandPoint from savedMaps.ts: derive the seed from the
date string and run up to 1000 seeded attempts. -/
def generateSeededLandPoint (land : ℚ → ℚ → Bool) (dateStr : String) : ℚ × ℚ :=
  seedLoop land (dateToSeed dateStr) 1000 0

/- ## Daily puzzle (savedMaps.ts) -/

structure PuzzleLocation where
  id : String
  lat : ℚ
  lng : ℚ
  country : Option String
  city : Option String
  state : Option String
  landmark : Option String
deriving DecidableEq

structure Puzzle where
  id : String
  location : PuzzleLocation
deriving DecidableEq

/-- getDailyPuzzle from savedMaps.ts, with the current date string and the
geometry and geocoding collaborators passed explicitly. -/
def getDailyPuzzle (land : ℚ → ℚ → Bool) (remote : RemoteOutcome)
    (load : Except Unit (List CountryFeature)) (dateStr : String) : Puzzle :=
  let p := generateSeededLandPoint land dateStr
  let details := reverseGeocodeDetailed remote load p.1 p.2
  { id := "daily-" ++ dateStr,
    location := { id := "daily-loc-" ++ dateStr, lat := p.1, lng := p.2,
                  country := some details.country, city := details.city,
                  state := details.state, landmark := details.landmark } }

/- ## Stats aggregation (savedMaps.ts stats section) -/

structure GameResult where
  puzzleId : String
  date : String
  distanceKm : ℚ
  zoomLevel : ℚ
  maxZoom : ℚ
  guessLat : ℚ
  guessLng : ℚ
  actualLat : ℚ
  actualLng : ℚ
  country : Option String
  city : Option String
  state : Option String
  landmark : Option String
deriving DecidableEq

/-- Per-country rollup. The JS field bestDistance starts at Infinity, which
the rationals lack, so it is modeled as an Option with none standing for
Infinity; it becomes finite on the first recorded round for the country. -/
structure CountryStats where
  count : Nat
  bestDistance : Option ℚ
  totalDistance : ℚ
  bestZoomLevel : Option ℚ
deriving DecidableEq

/-- PlayerStats as stored under the stats key. bestDistance is an Option
with none standing for the JS Infinity default. The JS objects keyed by
country and continent names are modeled as association lists in insertion
order, matching JS string-key enumeration order. -/
structure PlayerStats where
  totalRounds : Nat
  medianDistance : ℚ
  averageZoomLevel : ℚ
  bestDistance : Option ℚ
  worstDistance : ℚ
  recentResults : List GameResult
  countriesVisited : List (String × CountryStats)
  continentCounts : List (String × Nat)
deriving DecidableEq

/-- The defaultStats object of savedMaps.ts. -/
def defaultStats : PlayerStats :=
  { totalRounds := 0, medianDistance := 0, averageZoomLevel := 0, bestDistance := none,
    worstDistance := 0, recentResults := [], countriesVisited := [], continentCounts := [] }

/-- The static country-to-continent table of savedMaps.ts. -/
def countryToContinent : List (String × String) := [
  ("United States", "North America"), ("Canada", "North America"), ("Mexico", "North America"),
  ("Guatemala", "North America"), ("Cuba", "North America"), ("Haiti", "North America"),
  ("Dominican Republic", "North America"), ("Honduras", "North America"),
  ("Nicaragua", "North America"), ("El Salvador", "North America"),
  ("Costa Rica", "North America"), ("Panama", "North America"),
  ("Brazil", "South America"), ("Argentina", "South America"), ("Colombia", "South America"),
  ("Peru", "South America"), ("Venezuela", "South America"), ("Chile", "South America"),
  ("Ecuador", "South America"), ("Bolivia", "South America"), ("Paraguay", "South America"),
  ("Uruguay", "South America"),
  ("United Kingdom", "Europe"), ("France", "Europe"), ("Germany", "Europe"), ("Italy", "Europe"),
  ("Spain", "Europe"), ("Poland", "Europe"), ("Romania", "Europe"), ("Netherlands", "Europe"),
  ("Belgium", "Europe"), ("Czech Republic", "Europe"), ("Greece", "Europe"),
  ("Portugal", "Europe"), ("Sweden", "Europe"), ("Hungary", "Europe"), ("Austria", "Europe"),
  ("Switzerland", "Europe"), ("Bulgaria", "Europe"), ("Denmark", "Europe"),
  ("Finland", "Europe"), ("Slovakia", "Europe"), ("Norway", "Europe"), ("Ireland", "Europe"),
  ("Croatia", "Europe"), ("Slovenia", "Europe"), ("Serbia", "Europe"), ("Ukraine", "Europe"),
  ("Russia", "Europe"),
  ("China", "Asia"), ("India", "Asia"), ("Indonesia", "Asia"), ("Pakistan", "Asia"),
  ("Bangladesh", "Asia"), ("Japan", "Asia"), ("Philippines", "Asia"), ("Vietnam", "Asia"),
  ("Turkey", "Asia"), ("Iran", "Asia"), ("Thailand", "Asia"), ("Myanmar", "Asia"),
  ("South Korea", "Asia"), ("Iraq", "Asia"), ("Afghanistan", "Asia"), ("Saudi Arabia", "Asia"),
  ("Uzbekistan", "Asia"), ("Malaysia", "Asia"), ("Nepal", "Asia"), ("North Korea", "Asia"),
  ("Taiwan", "Asia"), ("Syria", "Asia"), ("Cambodia", "Asia"), ("Jordan", "Asia"),
  ("United Arab Emirates", "Asia"), ("Tajikistan", "Asia"), ("Israel", "Asia"),
  ("Laos", "Asia"), ("Lebanon", "Asia"), ("Singapore", "Asia"), ("Kuwait", "Asia"),
  ("Mongolia", "Asia"),
  ("Nigeria", "Africa"), ("Ethiopia", "Africa"), ("Egypt", "Africa"), ("DR Congo", "Africa"),
  ("Tanzania", "Africa"), ("South Africa", "Africa"), ("Kenya", "Africa"), ("Uganda", "Africa"),
  ("Algeria", "Africa"), ("Sudan", "Africa"), ("Morocco", "Africa"), ("Angola", "Africa"),
  ("Mozambique", "Africa"), ("Ghana", "Africa"), ("Madagascar", "Africa"),
  ("Cameroon", "Africa"), ("Ivory Coast", "Africa"), ("Niger", "Africa"),
  ("Burkina Faso", "Africa"), ("Mali", "Africa"), ("Senegal", "Africa"),
  ("Zimbabwe", "Africa"), ("Tunisia", "Africa"), ("Somalia", "Africa"),
  ("Sierra Leone", "Africa"), ("Libya", "Africa"), ("Liberia", "Africa"),
  ("Namibia", "Africa"), ("Zambia", "Africa"), ("Western Sahara", "Africa"),
  ("Australia", "Oceania"), ("Papua New Guinea", "Oceania"), ("New Zealand", "Oceania")]

/-- JS object write on an association list: update the existing key in
place, or append a fresh key at the end, preserving key enumeration order. -/
def setAssoc {α : Type} (l : List (String × α)) (k : String) (v : α) : List (String × α) :=
  if l.any (fun p => p.1 == k) then l.map (fun p => if p.1 == k then (k, v) else p)
  else l ++ [(k, v)]

/-- The slice operation with a negative start index: the last n elements. -/
def lastN {α : Type} (n : Nat) (l : List α) : List α := l.drop (l.length - n)

/-- calculateMedian from savedMaps.ts: 0 on an empty array, the middle
element of the ascending sort for odd length, the mean of the two middle
elements for even length. -/
def calculateMedian (arr : List ℚ) : ℚ :=
  if arr.length = 0 then 0
  else
    let sorted := List.insertionSort (fun a b => a ≤ b) arr
    let mid := sorted.length / 2
    if sorted.length % 2 ≠ 0 then sorted.getD mid 0
    else (sorted.getD (mid - 1) 0 + sorted.getD mid 0) / 2

/-- Comparison of a finite distance with a possibly-Infinity best distance:
d is less than Infinity (none) and otherwise compared numerically. -/
def ltInf (d : ℚ) : Option ℚ → Bool
  | none => true
  | some b => decide (d < b)

/-- The minimum of a possibly-Infinity accumulator (none) and a finite value;
the result is always finite. -/
def minInf : Option ℚ → ℚ → Option ℚ
  | none, d => some d
  | some b, d => some (min b d)

/-- The country-rollup update block of saveResult: skipped when the result
has no country; otherwise the country entry is created at its default if
absent, count and total are bumped, and best distance with its zoom level
are replaced on improvement. -/
def updateCountry (cv : List (String × CountryStats)) (result : GameResult) :
    List (String × CountryStats) :=
  match result.country with
  | none => cv
  | some c =>
    let cur := (List.lookup c cv).getD
      { count := 0, bestDistance := none, totalDistance := 0, bestZoomLevel := none }
    let improved := ltInf result.distanceKm cur.bestDistance
    setAssoc cv c
      { count := cur.count + 1,
        bestDistance := if improved then some result.distanceKm else cur.bestDistance,
        totalDistance := cur.totalDistance + result.distanceKm,
        bestZoomLevel := if improved then some result.zoomLevel else cur.bestZoomLevel }

/-- The continent-count update block of saveResult: skipped when the result
has no country; the continent defaults to Unknown for countries absent from
the static table. -/
def updateContinent (cc : List (String × Nat)) (result : GameResult) : List (String × Nat) :=
  match result.country with
  | none => cc
  | some c =>
    let continent := (List.lookup c countryToContinent).getD "Unknown"
    setAssoc cc continent ((List.lookup continent cc).getD 0 + 1)

/-- The slice of localStorage the stats functions touch: the rolling result
history under the results key (what getResults reads) and the cumulative
stats blob under the stats key (what getStats reads). -/
structure StatsState where
  results : List GameResult
  stats : PlayerStats
deriving DecidableEq

/-- saveResult from savedMaps.ts: append the result, persist only the last
100 results, and update the stats blob incrementally, recomputing median,
average zoom and recent results from the appended (unsliced) array while
bumping the cumulative fields from their previous stored values. -/
def saveResult (result : GameResult) (st : StatsState) : StatsState :=
  let results := st.results ++ [result]
  let storedResults := lastN 100 results
  let allDistances := results.map (fun r => r.distanceKm)
  let allZooms := results.map (fun r => r.zoomLevel)
  let stats := st.stats
  { results := storedResults,
    stats :=
      { totalRounds := stats.totalRounds + 1,
        medianDistance := calculateMedian allDistances,
        averageZoomLevel := allZooms.foldl (fun a b => a + b) 0 / (allZooms.length : ℚ),
        bestDistance := minInf stats.bestDistance result.distanceKm,
        worstDistance := max stats.worstDistance result.distanceKm,
        recentResults := lastN 10 results,
        countriesVisited := updateCountry stats.countriesVisited result,
        continentCounts := updateContinent stats.continentCounts result } }

/-- Modelled from the spec, section StatsAggregator: the pure recomputation
of every PlayerStats aggregate from the stored history alone: round count,
median of all distances, mean zoom, min and max distance, last ten results,
and the per-country and per-continent rollups folded over the history. -/
def recomputeStats (history : List GameResult) : PlayerStats :=
  { totalRounds := history.length,
    medianDistance := calculateMedian (history.map (fun r => r.distanceKm)),
    averageZoomLevel :=
      (history.map (fun r => r.zoomLevel)).foldl (fun a b => a + b) 0 / (history.length : ℚ),
    bestDistance := history.foldl (fun acc r => minInf acc r.distanceKm) none,
    worstDistance := history.foldl (fun acc r => max acc r.distanceKm) 0,
    recentResults := lastN 10 history,
    countriesVisited := history.foldl updateCountry [],
    continentCounts := history.foldl updateContinent [] }

/-- The state before any round is recorded: empty history, defaultStats. -/
def initialStatsState : StatsState := { results := [], stats := defaultStats }

/-- The state reached by saving the given results in order, starting from
the initial state. -/
def saveFold (rs : List GameResult) : StatsState :=
  rs.foldl (fun st r => saveResult r st) initialStatsState

/-- The state reached by saving the same result n times from the initial
state. -/
def saveRepeat (r : GameResult) : Nat → StatsState
  | 0 => initialStatsState
  | n + 1 => saveResult r (saveRepeat r n)

/-- A concrete recorded round used as test data. -/
def sampleResult : GameResult :=
  { puzzleId := "puzzle-1", date := "2024-06-01", distanceKm := 5, zoomLevel := 3, maxZoom := 4,
    guessLat := 1, guessLng := 2, actualLat := 3, actualLng := 4,
    country := none, city := none, state := none, landmark := none }

/- ## Haversine distance (gameData.ts), over the real numbers -/

/-- JavaScript Math.atan2, defined piecewise from the one-argument
arctangent in the usual quadrant convention. -/
noncomputable def atan2 (y x : ℝ) : ℝ :=
  if 0 < x then Real.arctan (y / x)
  else if x < 0 then
    (if 0 ≤ y then Real.arctan (y / x) + Real.pi else Real.arctan (y / x) - Real.pi)
  else if 0 < y then Real.pi / 2
  else if y < 0 then -(Real.pi / 2)
  else 0

/-- calculateDistance from gameData.ts: the haversine great-circle distance
with Earth radius 6371 km, over the real numbers. -/
noncomputable def calculateDistance (lat1 lng1 lat2 lng2 : ℝ) : ℝ :=
  let dLat := (lat2 - lat1) * (Real.pi / 180)
  let dLng := (lng2 - lng1) * (Real.pi / 180)
  let a := Real.sin (dLat / 2) * Real.sin (dLat / 2) +
    Real.cos (lat1 * (Real.pi / 180)) * Real.cos (lat2 * (Real.pi / 180)) *
    Real.sin (dLng / 2) * Real.sin (dLng / 2)
  let c := 2 * atan2 (Real.sqrt a) (Real.sqrt (1 - a))
  6371 * c

/- ## Theorems -/

/-- Claim C8: every value produced by the generator returned by
seededRandom(seed), for a uint32 seed and any position in the stream, lies
in the interval [0, 1). -/
theorem seededRandom_val_mem_Ico (seed k : Nat) (hseed : seed < 4294967296) :
    0 ≤ seededRandomVal seed k ∧ seededRandomVal seed k < 1 := by
  have hxor : ∀ a b : Nat, a < 4294967296 → b < 4294967296 → a ^^^ b < 4294967296 := by
    intro a b ha hb
    have h32 : (4294967296 : Nat) = 2 ^ 32 := by norm_num
    rw [h32] at ha hb ⊢
    exact Nat.xor_lt_two_pow ha hb
  have hmix : ∀ x : Nat, x < 4294967296 → x ^^^ x >>> 14 < 4294967296 := by
    intro x hx
    refine hxor _ _ hx (lt_of_le_of_lt ?_ hx)
    rw [Nat.shiftRight_eq_div_pow]
    exact Nat.div_le_self _ _
  have hnth : seededRandomNth seed k < 4294967296 := by
    unfold seededRandomNth mulberry32 imul
    apply hmix
    apply hxor
    · exact Nat.mod_lt _ (by norm_num)
    · exact Nat.mod_lt _ (by norm_num)
  constructor
  · unfold seededRandomVal
    positivity
  · unfold seededRandomVal
    rw [div_lt_one (by norm_num)]
    exact_mod_cast hnth

/-- Witness for claim C8 at seed 0, position 0. -/
theorem seededRandom_val_mem_Ico_witness :
    0 ≤ seededRandomVal 0 0 ∧ seededRandomVal 0 0 < 1 :=
  seededRandom_val_mem_Ico 0 0 (by norm_num)

/-- Bridge lemma: below the 200 km threshold the assigned tier is excellent,
of rank 3. -/
theorem tierRank_lt_200 (d : ℚ) (h : d < 200) : tierRank (getDistanceBand d).tier = 3 := by
  unfold getDistanceBand
  rcases lt_or_le d 25 with h1 | h1
  · rw [if_pos h1]; rfl
  · rw [if_neg (not_lt.mpr h1)]
    rcases lt_or_le d 75 with h2 | h2
    · rw [if_pos h2]; rfl
    · rw [if_neg (not_lt.mpr h2), if_pos h]
      rfl

/-- Bridge lemma: between 200 km and 1200 km the assigned tier is good, of
rank 2. -/
theorem tierRank_mid (d : ℚ) (h0 : 200 ≤ d) (h : d < 1200) :
    tierRank (getDistanceBand d).tier = 2 := by
  unfold getDistanceBand
  rw [if_neg (not_lt.mpr (by linarith : (25:ℚ) ≤ d)),
    if_neg (not_lt.mpr (by linarith : (75:ℚ) ≤ d)), if_neg (not_lt.mpr h0)]
  rcases lt_or_le d 400 with h1 | h1
  · rw [if_pos h1]; rfl
  · rw [if_neg (not_lt.mpr h1)]
    rcases lt_or_le d 700 with h2 | h2
    · rw [if_pos h2]; rfl
    · rw [if_neg (not_lt.mpr h2), if_pos h]
      rfl

/-- Bridge lemma: between 1200 km and 4500 km the assigned tier is fair, of
rank 1. -/
theorem tierRank_fair (d : ℚ) (h0 : 1200 ≤ d) (h : d < 4500) :
    tierRank (getDistanceBand d).tier = 1 := by
  unfold getDistanceBand
  rw [if_neg (not_lt.mpr (by linarith : (25:ℚ) ≤ d)),
    if_neg (not_lt.mpr (by linarith : (75:ℚ) ≤ d)),
    if_neg (not_lt.mpr (by linarith : (200:ℚ) ≤ d)),
    if_neg (not_lt.mpr (by linarith : (400:ℚ) ≤ d)),
    if_neg (not_lt.mpr (by linarith : (700:ℚ) ≤ d)), if_neg (not_lt.mpr h0)]
  rcases lt_or_le d 2000 with h1 | h1
  · rw [if_pos h1]; rfl
  · rw [if_neg (not_lt.mpr h1)]
    rcases lt_or_le d 3000 with h2 | h2
    · rw [if_pos h2]; rfl
    · rw [if_neg (not_lt.mpr h2), if_pos h]
      rfl

/-- Bridge lemma: from 4500 km on the assigned tier is far, of rank 0. -/
theorem tierRank_far (d : ℚ) (h0 : 4500 ≤ d) : tierRank (getDistanceBand d).tier = 0 := by
  unfold getDistanceBand
  rw [if_neg (not_lt.mpr (by linarith : (25:ℚ) ≤ d)),
    if_neg (not_lt.mpr (by linarith : (75:ℚ) ≤ d)),
    if_neg (not_lt.mpr (by linarith : (200:ℚ) ≤ d)),
    if_neg (not_lt.mpr (by linarith : (400:ℚ) ≤ d)),
    if_neg (not_lt.mpr (by linarith : (700:ℚ) ≤ d)),
    if_neg (not_lt.mpr (by linarith : (1200:ℚ) ≤ d)),
    if_neg (not_lt.mpr (by linarith : (2000:ℚ) ≤ d)),
    if_neg (not_lt.mpr (by linarith : (3000:ℚ) ≤ d)), if_neg (not_lt.mpr h0)]
  rcases lt_or_le d 6000 with h1 | h1
  · rw [if_pos h1]; rfl
  · rw [if_neg (not_lt.mpr h1)]
    rcases lt_or_le d 8000 with h2 | h2
    · rw [if_pos h2]; rfl
    · rw [if_neg (not_lt.mpr h2)]
      rcases lt_or_le d 10000 with h3 | h3
      · rw [if_pos h3]; rfl
      · rw [if_neg (not_lt.mpr h3)]
        rcases lt_or_le d 14000 with h4 | h4
        · rw [if_pos h4]; rfl
        · rw [if_neg (not_lt.mpr h4)]
          rfl

/-- Claim C4: the tier classifier is total (it is a function into the
four-constructor Tier type, so every distance receives exactly one tier)
and monotone: a strictly smaller nonnegative distance is never assigned a
strictly worse tier. -/
theorem getDistanceBand_monotone (d1 d2 : ℚ) (h0 : 0 ≤ d1) (h : d1 < d2) :
    tierRank (getDistanceBand d2).tier ≤ tierRank (getDistanceBand d1).tier := by
  rcases lt_or_le d1 200 with ha | ha
  · rw [tierRank_lt_200 d1 ha]
    rcases lt_or_le d2 200 with hb | hb
    · rw [tierRank_lt_200 d2 hb]
    · rcases lt_or_le d2 1200 with hc | hc
      · rw [tierRank_mid d2 hb hc]; norm_num
      · rcases lt_or_le d2 4500 with hd | hd
        · rw [tierRank_fair d2 hc hd]; norm_num
        · rw [tierRank_far d2 hd]; norm_num
  · rcases lt_or_le d1 1200 with ha2 | ha2
    · rw [tierRank_mid d1 ha ha2]
      rcases lt_or_le d2 1200 with hc | hc
      · rw [tierRank_mid d2 (by linarith) hc]
      · rcases lt_or_le d2 4500 with hd | hd
        · rw [tierRank_fair d2 hc hd]; norm_num
        · rw [tierRank_far d2 hd]; norm_num
    · rcases lt_or_le d1 4500 with ha3 | ha3
      · rw [tierRank_fair d1 ha2 ha3]
        rcases lt_or_le d2 4500 with hd | hd
        · rw [tierRank_fair d2 (by linarith) hd]
        · rw [tierRank_far d2 hd]; norm_num
      · rw [tierRank_far d1 ha3, tierRank_far d2 (by linarith)]

/-- Witness for claim C4 at distances 100 and 5000. -/
theorem getDistanceBand_monotone_witness :
    tierRank (getDistanceBand 5000).tier ≤ tierRank (getDistanceBand 100).tier :=
  getDistanceBand_monotone 100 5000 (by norm_num) (by norm_num)

/-- Claim C10: setPlayerName stores the trimmed name exactly when the
trimmed length is between 2 and 20 inclusive, and otherwise performs no
write, so a following getPlayerName returns the previously stored value. -/
theorem setPlayerName_stores_iff_valid (name : String) (stored : Option String) :
    getPlayerName (setPlayerName name stored) =
      if 2 ≤ name.trim.length ∧ name.trim.length ≤ 20 then some name.trim
      else getPlayerName stored := rfl

/-- Claim C9: saveDailyResult unconditionally marks the current day as
played, so hasDailyBeenPlayed returns true immediately afterwards, whatever
date the saved result carries. -/
theorem hasDailyBeenPlayed_after_saveDailyResult (today : String) (result : DailyResult)
    (s : DailyStore) :
    hasDailyBeenPlayed today (saveDailyResult today result s) = true := by
  simp [hasDailyBeenPlayed, saveDailyResult, markDailyAsPlayed]

/-- The practice-mode attempt loop either returns a point passing the land
test or, once the attempts are exhausted, the Paris fallback. -/
theorem randLoop_land_or_fallback (land : ℚ → ℚ → Bool) (rand : Nat → ℚ) :
    ∀ (fuel i : Nat),
      land (randLoop land rand fuel i).1 (randLoop land rand fuel i).2 = true ∨
      randLoop land rand fuel i = (48.8566, 2.3522) := by
  intro fuel
  induction fuel with
  | zero => intro i; exact Or.inr rfl
  | succ n ih =>
    intro i
    simp only [randLoop]
    split
    next h => exact Or.inl h
    next h => exact ih (i + 1)

/-- The daily-mode attempt loop either returns a point passing the land
test or, once the attempts are exhausted, the London fallback. -/
theorem seedLoop_land_or_fallback (land : ℚ → ℚ → Bool) (seed : Nat) :
    ∀ (fuel i : Nat),
      land (seedLoop land seed fuel i).1 (seedLoop land seed fuel i).2 = true ∨
      seedLoop land seed fuel i = (51.5074, -0.1278) := by
  intro fuel
  induction fuel with
  | zero => intro i; exact Or.inr rfl
  | succ n ih =>
    intro i
    simp only [seedLoop]
    split
    next h => exact Or.inl h
    next h => exact ih (i + 1)

/-- Claim C2: every coordinate returned by either point sampler passes the
land containment test or equals the documented fixed fallback point (Paris
for the practice sampler, London for the daily sampler); both samplers are
total functions, so exhausting the bounded attempts never errors out. -/
theorem samplers_land_or_fallback (land : ℚ → ℚ → Bool) (rand : Nat → ℚ) (dateStr : String) :
    (land (generateRandomLandPoint land rand).1 (generateRandomLandPoint land rand).2 = true ∨
      generateRandomLandPoint land rand = (48.8566, 2.3522)) ∧
    (land (generateSeededLandPoint land dateStr).1 (generateSeededLandPoint land dateStr).2 = true ∨
      generateSeededLandPoint land dateStr = (51.5074, -0.1278)) :=
  ⟨randLoop_land_or_fallback land rand 1000 0,
   seedLoop_land_or_fallback land (dateToSeed dateStr) 1000 0⟩

/-- Claim C1: daily puzzle generation is deterministic. The embedded
getDailyPuzzle is a pure function of the date string and of the fixed
collaborators (land geometry snapshot, remote geocoding outcome), so two
evaluations for the same date yield the same latitude, the same longitude
and the same puzzle id, and that id is daily- followed by the date. -/
theorem getDailyPuzzle_deterministic (land : ℚ → ℚ → Bool) (remote : RemoteOutcome)
    (load : Except Unit (List CountryFeature)) (d : String) (p1 p2 : Puzzle)
    (h1 : p1 = getDailyPuzzle land remote load d) (h2 : p2 = getDailyPuzzle land remote load d) :
    p1.location.lat = p2.location.lat ∧ p1.location.lng = p2.location.lng ∧
    p1.id = p2.id ∧ p1.id = "daily-" ++ d := by
  subst h1
  subst h2
  exact ⟨rfl, rfl, rfl, rfl⟩

/-- Witness for claim C1 on the date 2024-06-01 with an all-land geometry
snapshot and a failing remote endpoint. -/
theorem getDailyPuzzle_deterministic_witness :
    (getDailyPuzzle (fun _ _ => true) RemoteOutcome.networkError (Except.error ())
        "2024-06-01").location.lat =
      (getDailyPuzzle (fun _ _ => true) RemoteOutcome.networkError (Except.error ())
        "2024-06-01").location.lat ∧
    (getDailyPuzzle (fun _ _ => true) RemoteOutcome.networkError (Except.error ())
        "2024-06-01").location.lng =
      (getDailyPuzzle (fun _ _ => true) RemoteOutcome.networkError (Except.error ())
        "2024-06-01").location.lng ∧
    (getDailyPuzzle (fun _ _ => true) RemoteOutcome.networkError (Except.error ())
        "2024-06-01").id =
      (getDailyPuzzle (fun _ _ => true) RemoteOutcome.networkError (Except.error ())
        "2024-06-01").id ∧
    (getDailyPuzzle (fun _ _ => true) RemoteOutcome.networkError (Except.error ())
        "2024-06-01").id = "daily-" ++ "2024-06-01" :=
  getDailyPuzzle_deterministic (fun _ _ => true) RemoteOutcome.networkError (Except.error ())
    "2024-06-01" _ _ rfl rfl

/-- Claim C6: after saveDailyResult, on any store whose persisted list has
pairwise-distinct dates (an invariant of lists built by these calls), the
persisted list is strictly descending by date (hence sorted and with at
most one entry per date), has at most 30 entries, any entry carrying the
new date is the new result (replacement, not append), and every entry that
was dropped by the cap has a date at most that of every kept entry, so only
the oldest-dated entries are evicted. -/
theorem saveDailyResult_daily_invariants (today : String) (result : DailyResult) (s : DailyStore)
    (h : (s.dailyResults.map DailyResult.date).Nodup) :
    (saveDailyResult today result s).dailyResults.Pairwise (fun a b => b.date < a.date) ∧
    (saveDailyResult today result s).dailyResults.length ≤ 30 ∧
    (∀ x ∈ (saveDailyResult today result s).dailyResults, x.date = result.date → x = result) ∧
    (∀ b ∈ s.dailyResults.filter (fun r => r.date != result.date) ++ [result],
      b ∉ (saveDailyResult today result s).dailyResults →
      ∀ a ∈ (saveDailyResult today result s).dailyResults, b.date ≤ a.date) := by
  have hpost : (saveDailyResult today result s).dailyResults =
      (List.insertionSort dateDesc
        (s.dailyResults.filter (fun r => r.date != result.date) ++ [result])).take 30 := rfl
  set pushed := s.dailyResults.filter (fun r => r.date != result.date) ++ [result]
    with hpushed
  set L := List.insertionSort dateDesc pushed with hLdef
  have hperm : L.Perm pushed := List.perm_insertionSort _ _
  have hsorted : L.Pairwise dateDesc := List.sorted_insertionSort dateDesc pushed
  have hfdate : ∀ x ∈ s.dailyResults.filter (fun r => r.date != result.date),
      x.date ≠ result.date := by
    intro x hx
    have hmem := List.of_mem_filter hx
    simpa using hmem
  have hnodup_pushed : (pushed.map DailyResult.date).Nodup := by
    rw [hpushed, List.map_append]
    rw [List.nodup_append]
    refine ⟨h.sublist (List.Sublist.map _ (List.filter_sublist _)), by simp, ?_⟩
    intro a ha hb
    simp only [List.map_cons, List.map_nil, List.mem_singleton] at hb
    obtain ⟨x, hx, rfl⟩ := List.mem_map.mp ha
    exact hfdate x hx hb
  have hnodupL : (L.map DailyResult.date).Nodup :=
    (hperm.map DailyResult.date).nodup_iff.mpr hnodup_pushed
  have hne : L.Pairwise (fun a b => a.date ≠ b.date) := by
    have hx := hnodupL
    rw [List.Nodup, List.pairwise_map] at hx
    exact hx
  have hstrict : L.Pairwise (fun a b => b.date < a.date) :=
    (hsorted.and hne).imp (fun hab => lt_of_le_of_ne hab.1 (Ne.symm hab.2))
  refine ⟨?_, ?_, ?_, ?_⟩
  · rw [hpost]
    exact List.Pairwise.sublist (List.take_sublist 30 L) hstrict
  · rw [hpost, List.length_take]
    exact min_le_left _ _
  · intro x hx hdate
    rw [hpost] at hx
    have hxL : x ∈ L := List.mem_of_mem_take hx
    have hxp : x ∈ pushed := hperm.mem_iff.mp hxL
    rw [hpushed] at hxp
    rcases List.mem_append.mp hxp with hf | hr
    · exact absurd hdate (hfdate x hf)
    · simpa using hr
  · intro b hbp hbnot a ha
    rw [hpost] at hbnot ha
    have hbL : b ∈ L := hperm.mem_iff.mpr hbp
    have hsplit : L = L.take 30 ++ L.drop 30 := (List.take_append_drop 30 L).symm
    have hbsplit : b ∈ L.take 30 ++ L.drop 30 := by rw [← hsplit]; exact hbL
    have hbdrop : b ∈ L.drop 30 := by
      rcases List.mem_append.mp hbsplit with h1 | h1
      · exact absurd h1 hbnot
      · exact h1
    have hpair : (L.take 30 ++ L.drop 30).Pairwise (fun a b => b.date < a.date) := by
      rw [← hsplit]
      exact hstrict
    exact le_of_lt ((List.pairwise_append.mp hpair).2.2 a ha b hbdrop)

/-- Witness for claim C6: saving a concrete result into the empty store. -/
theorem saveDailyResult_daily_invariants_witness :
    ((⟨[], none⟩ : DailyStore).dailyResults.map DailyResult.date).Nodup ∧
    ((saveDailyResult "2024-06-01" sampleDaily ⟨[], none⟩).dailyResults.Pairwise
        (fun a b => b.date < a.date) ∧
      (saveDailyResult "2024-06-01" sampleDaily ⟨[], none⟩).dailyResults.length ≤ 30 ∧
      (∀ x ∈ (saveDailyResult "2024-06-01" sampleDaily ⟨[], none⟩).dailyResults,
        x.date = sampleDaily.date → x = sampleDaily) ∧
      (∀ b ∈ (⟨[], none⟩ : DailyStore).dailyResults.filter
          (fun r => r.date != sampleDaily.date) ++ [sampleDaily],
        b ∉ (saveDailyResult "2024-06-01" sampleDaily ⟨[], none⟩).dailyResults →
        ∀ a ∈ (saveDailyResult "2024-06-01" sampleDaily ⟨[], none⟩).dailyResults,
        b.date ≤ a.date)) :=
  ⟨by simp, saveDailyResult_daily_invariants "2024-06-01" sampleDaily ⟨[], none⟩ (by simp)⟩

/-- Claim C7: when the remote reverse-geocode request fails with a network
error, a non-OK status, or a body that does not parse, the detailed
resolver returns the minimal location whose country and display name both
come from the local lookup, and that local lookup yields Unknown Location
whenever the geometry load failed or no feature contains the point; being a
total function, the resolver never throws past its boundary. -/
theorem reverseGeocodeDetailed_failure_fallback (remote : RemoteOutcome)
    (load : Except Unit (List CountryFeature)) (lat lng : ℚ)
    (h : remote.isFailure = true) :
    reverseGeocodeDetailed remote load lat lng =
      { city := none, state := none, country := reverseGeocode load lat lng,
        displayName := reverseGeocode load lat lng, landmark := none,
        neighbourhood := none } ∧
    (∀ e, load = Except.error e → reverseGeocode load lat lng = "Unknown Location") ∧
    (∀ features, load = Except.ok features → getCountryAtPoint lat lng features = none →
      reverseGeocode load lat lng = "Unknown Location") := by
  refine ⟨?_, ?_, ?_⟩
  · cases remote with
    | ok addr => simp [RemoteOutcome.isFailure] at h
    | networkError => rfl
    | badStatus => rfl
    | malformedBody => rfl
  · intro e he
    subst he
    rfl
  · intro features hf hnone
    subst hf
    simp [reverseGeocode, hnone]

/-- Witness for claim C7: a network error with a failed geometry load. -/
theorem reverseGeocodeDetailed_failure_fallback_witness :
    RemoteOutcome.networkError.isFailure = true ∧
    (reverseGeocodeDetailed RemoteOutcome.networkError (Except.error ()) 0 0 =
      { city := none, state := none, country := reverseGeocode (Except.error ()) 0 0,
        displayName := reverseGeocode (Except.error ()) 0 0, landmark := none,
        neighbourhood := none } ∧
     (∀ e, (Except.error () : Except Unit (List CountryFeature)) = Except.error e →
        reverseGeocode (Except.error ()) 0 0 = "Unknown Location") ∧
     (∀ features, (Except.error () : Except Unit (List CountryFeature)) = Except.ok features →
        getCountryAtPoint 0 0 features = none →
        reverseGeocode (Except.error ()) 0 0 = "Unknown Location")) :=
  ⟨rfl, reverseGeocodeDetailed_failure_fallback RemoteOutcome.networkError (Except.error ()) 0 0
    rfl⟩

/-- Length of the last-n slice. -/
theorem lastN_length {α : Type} (n : Nat) (l : List α) : (lastN n l).length = min l.length n := by
  unfold lastN
  rw [List.length_drop]
  omega

/-- The last-n slice of a list no longer than n is the whole list. -/
theorem lastN_of_le {α : Type} (n : Nat) (l : List α) (h : l.length ≤ n) : lastN n l = l := by
  unfold lastN
  rw [Nat.sub_eq_zero_of_le h, List.drop_zero]

/-- One saveResult step on a state whose stats equal the recomputation of
its history extends the history and keeps the stats equal to the
recomputation, as long as the appended history still fits under the
100-result cap. -/
theorem saveResult_step (hist : List GameResult) (r : GameResult)
    (hlen : hist.length + 1 ≤ 100) :
    saveResult r ⟨hist, recomputeStats hist⟩ = ⟨hist ++ [r], recomputeStats (hist ++ [r])⟩ := by
  have hdrop : lastN 100 (hist ++ [r]) = hist ++ [r] := by
    apply lastN_of_le
    rw [List.length_append]
    simpa using hlen
  simp [saveResult, recomputeStats, hdrop, List.foldl_append]

/-- Unfolding one step of saveFold from the right. -/
theorem saveFold_append (l : List GameResult) (a : GameResult) :
    saveFold (l ++ [a]) = saveResult a (saveFold l) := by
  unfold saveFold
  rw [List.foldl_append]
  rfl

/-- Claim C3, amended: for every state reachable by at most 100 saveResult
calls from the initial state, so that the history has not yet overflowed
its cap, the persisted stats blob equals the pure recomputation of every
aggregate from the persisted history alone. -/
theorem stats_rederivable_upto_cap (rs : List GameResult) (h : rs.length ≤ 100) :
    (saveFold rs).results = rs ∧ (saveFold rs).stats = recomputeStats rs := by
  revert h
  induction rs using List.reverseRecOn with
  | nil =>
    refine fun _ => ⟨rfl, ?_⟩
    simp [saveFold, initialStatsState, defaultStats, recomputeStats, calculateMedian, lastN]
  | append_singleton l a ih =>
    intro h
    rw [List.length_append] at h
    simp at h
    have hl : l.length ≤ 100 := by omega
    obtain ⟨h1, h2⟩ := ih hl
    have heta : saveFold l = ⟨(saveFold l).results, (saveFold l).stats⟩ := rfl
    have hstate : saveFold l = ⟨l, recomputeStats l⟩ := by
      rw [heta, h1, h2]
    have hstep := saveResult_step l a (by omega)
    rw [saveFold_append, hstate, hstep]
    exact ⟨rfl, rfl⟩

/-- Witness for the amended claim C3 at a one-result history. -/
theorem stats_rederivable_upto_cap_witness :
    ([sampleResult] : List GameResult).length ≤ 100 ∧
    ((saveFold [sampleResult]).results = [sampleResult] ∧
      (saveFold [sampleResult]).stats = recomputeStats [sampleResult]) :=
  ⟨by decide, stats_rederivable_upto_cap [sampleResult] (by decide)⟩

/-- The persisted history length after n identical saves is n capped at 100. -/
theorem saveRepeat_results_length (r : GameResult) :
    ∀ n, (saveRepeat r n).results.length = min n 100 := by
  intro n
  induction n with
  | zero => simp [saveRepeat, initialStatsState]
  | succ n ih =>
    have hres : (saveRepeat r (n + 1)).results =
        lastN 100 ((saveRepeat r n).results ++ [r]) := rfl
    rw [hres, lastN_length, List.length_append, ih, List.length_singleton]
    omega

/-- The stored totalRounds after n identical saves is exactly n. -/
theorem saveRepeat_totalRounds (r : GameResult) :
    ∀ n, (saveRepeat r n).stats.totalRounds = n := by
  intro n
  induction n with
  | zero => rfl
  | succ n ih =>
    have hst : (saveRepeat r (n + 1)).stats.totalRounds =
        (saveRepeat r n).stats.totalRounds + 1 := rfl
    rw [hst, ih]

/-- Counterexample to claim C3 as stated: after 101 saves of the same
result, the stored stats carry totalRounds 101 while the persisted history
is capped at 100 entries, so no recomputation from the stored history can
reproduce the stored PlayerStats. -/
theorem stats_not_rederivable_beyond_cap :
    recomputeStats (saveRepeat sampleResult 101).results ≠
      (saveRepeat sampleResult 101).stats := by
  have h1 : ∀ hist : List GameResult, (recomputeStats hist).totalRounds = hist.length :=
    fun _ => rfl
  intro h
  have htr := congrArg PlayerStats.totalRounds h
  rw [h1, saveRepeat_results_length, saveRepeat_totalRounds] at htr
  omega

/-- The JavaScript arctangent of (0, 1) is zero. -/
theorem atan2_zero_one : atan2 0 1 = 0 := by
  unfold atan2
  rw [if_pos one_pos]
  simp

/-- Claim C5: the haversine distance of a point to itself is zero, and the
distance is symmetric in its two coordinate arguments. -/
theorem calculateDistance_id_symm (lat1 lng1 lat2 lng2 : ℝ) :
    calculateDistance lat1 lng1 lat1 lng1 = 0 ∧
    calculateDistance lat1 lng1 lat2 lng2 = calculateDistance lat2 lng2 lat1 lng1 := by
  constructor
  · simp only [calculateDistance, sub_self, zero_mul, zero_div, Real.sin_zero, mul_zero,
      zero_add, add_zero, Real.sqrt_zero, sub_zero, Real.sqrt_one, atan2_zero_one]
  · have hsin : ∀ x y : ℝ,
        Real.sin ((x - y) * (Real.pi / 180) / 2) * Real.sin ((x - y) * (Real.pi / 180) / 2) =
        Real.sin ((y - x) * (Real.pi / 180) / 2) * Real.sin ((y - x) * (Real.pi / 180) / 2) := by
      intro x y
      have hneg : (x - y) * (Real.pi / 180) / 2 = -((y - x) * (Real.pi / 180) / 2) := by ring
      rw [hneg, Real.sin_neg]
      ring
    have hterm : ∀ u v x y : ℝ,
        Real.cos u * Real.cos v * Real.sin ((x - y) * (Real.pi / 180) / 2) *
          Real.sin ((x - y) * (Real.pi / 180) / 2) =
        Real.cos v * Real.cos u * Real.sin ((y - x) * (Real.pi / 180) / 2) *
          Real.sin ((y - x) * (Real.pi / 180) / 2) := by
      intro u v x y
      have hneg : (x - y) * (Real.pi / 180) / 2 = -((y - x) * (Real.pi / 180) / 2) := by ring
      rw [hneg, Real.sin_neg]
      ring
    simp only [calculateDistance]
    rw [hsin lat2 lat1, hterm (lat1 * (Real.pi / 180)) (lat2 * (Real.pi / 180)) lng2 lng1]
